import Mathlib

/-!
Verification of `nvidia_stats.c` (weter11/nvidia-scripts).

The C program reads undocumented NVIDIA telemetry through the driver's
private `nvapi_QueryInterface` dispatch.  We embed it shallowly: the
driver side (library presence, interface resolution, per-call status and
values) is an explicit environment `NvEnv`, and each C function becomes a
Lean function over that environment.  Machine `int32_t`/`uint32_t`
arithmetic is modelled with `Int`/`Nat` together with explicit `% 2^32`
where wrap-around matters; C `/` on `int32_t` (truncation toward zero) is
`Int.tdiv`.
-/

/-- Interface ID for NvAPI_Initialize (`QUERY_NVAPI_INITIALIZE`). -/
def QUERY_NVAPI_INITIALIZE : Nat := 0x0150e828

/-- Interface ID for NvAPI_Unload (`QUERY_NVAPI_UNLOAD`). -/
def QUERY_NVAPI_UNLOAD : Nat := 0xd22bdd7e

/-- Interface ID for NvAPI_EnumPhysicalGPUs. -/
def QUERY_NVAPI_ENUM_PHYSICAL_GPUS : Nat := 0xe5ac921f

/-- Interface ID for the undocumented thermals call. -/
def QUERY_NVAPI_THERMALS : Nat := 0x65fe3aad

/-- Interface ID for the undocumented voltage call. -/
def QUERY_NVAPI_VOLTAGE : Nat := 0x465f9bcf

/-- Byte size of `NvApiThermals` computed from its layout:
`uint32_t version; int32_t mask; int32_t values[40];`. -/
def sizeofNvApiThermals : Nat := 4 + 4 + 40 * 4

/-- Byte size of `NvApiVoltage` computed from its layout:
`uint32_t version; uint32_t flags; uint32_t padding_1[8];
uint32_t value_uv; uint32_t padding_2[8];`. -/
def sizeofNvApiVoltage : Nat := 4 + 4 + 8 * 4 + 4 + 8 * 4

/-- The version stamp written into every `NvApiThermals` structure:
`sizeof(NvApiThermals) | (2 << 16)`. -/
def thermalsVersion : Nat := sizeofNvApiThermals ||| (2 <<< 16)

/-- The version stamp written into every `NvApiVoltage` structure:
`sizeof(NvApiVoltage) | (1 << 16)`. -/
def voltageVersion : Nat := sizeofNvApiVoltage ||| (1 <<< 16)

/-- Simulated driver environment: everything the C program observes from
`libnvidia-api.so.1`.  Device handles are modelled as `Nat`.  The thermal
query is a pure function of (handle, version stamp, mask); it returns an
`NvAPI_Status` and the 40-entry raw values array the driver writes. -/
structure NvEnv where
  /-- `dlopen(NVAPI_LIBRARY)` succeeds. -/
  libPresent : Bool
  /-- `dlsym(.., "nvapi_QueryInterface")` succeeds. -/
  symbolPresent : Bool
  /-- `nvapi_QueryInterface id` returns a non-null pointer. -/
  resolve : Nat → Bool
  /-- Status returned by `NvAPI_Initialize`. -/
  initStatus : Int
  /-- Status returned by `EnumPhysicalGPUs`. -/
  enumStatus : Int
  /-- Handles written by a successful enumeration. -/
  enumDevices : List Nat
  /-- Status of a thermal query: handle, version stamp, mask. -/
  thermalStatus : Nat → Nat → Nat → Int
  /-- Raw values array written by a successful thermal query. -/
  thermalValues : Nat → Nat → Nat → Fin 40 → Int
  /-- Status of a voltage query: handle, version stamp. -/
  voltageStatus : Nat → Nat → Int
  /-- `value_uv` written by a successful voltage query. -/
  voltageValue : Nat → Nat → Nat

/-- Process-wide mutable state of the C file: the `nvapi_lib` module
handle and the `nvapi_QueryInterface` pointer (modelled as "is set"). -/
structure NvState where
  libLoaded : Bool
  queryInterfaceSet : Bool
deriving DecidableEq, Repr

/-- `get_nvapi_function`: resolve an interface ID.  Returns whether the
driver produced a non-null function pointer; never fails itself. -/
def get_nvapi_function (env : NvEnv) (id : Nat) : Bool :=
  env.resolve id

/-- `load_nvapi`: dlopen the library and resolve `nvapi_QueryInterface`.
Returns the C status (0 ok, -1 error) and the resulting global state; on
the dlsym-failure path the module is dlclosed again. -/
def load_nvapi (env : NvEnv) : Int × NvState :=
  if ¬ env.libPresent then (-1, ⟨false, false⟩)
  else if ¬ env.symbolPresent then (-1, ⟨false, false⟩)
  else (0, ⟨true, true⟩)

/-- `init_nvapi`: resolve and invoke the initialize entry point. -/
def init_nvapi (env : NvEnv) : Int :=
  if ¬ get_nvapi_function env QUERY_NVAPI_INITIALIZE then -1
  else if env.initStatus ≠ 0 then -1
  else 0

/-- `enum_physical_gpus`: resolve and invoke `EnumPhysicalGPUs`.
`none` models the C return value `-1` (output count undefined). -/
def enum_physical_gpus (env : NvEnv) : Option (List Nat) :=
  if ¬ get_nvapi_function env QUERY_NVAPI_ENUM_PHYSICAL_GPUS then none
  else if env.enumStatus ≠ 0 then none
  else some env.enumDevices

/-- Observable effects of one `unload_nvapi` call. -/
structure UnloadEffects where
  /-- The resolved unload entry point was invoked. -/
  invokedUnloadEntry : Bool
  /-- `dlclose(nvapi_lib)` was called. -/
  releasedModule : Bool
deriving DecidableEq, Repr

/-- `unload_nvapi`: if `nvapi_QueryInterface` was ever obtained, resolve
the unload ID and invoke it when it resolves; then dlclose the module if
one is loaded.  Returns the new global state and the effects. -/
def unload_nvapi (env : NvEnv) (s : NvState) : NvState × UnloadEffects :=
  let invoked := s.queryInterfaceSet && get_nvapi_function env QUERY_NVAPI_UNLOAD
  let released := s.libLoaded
  (⟨false, s.queryInterfaceSet⟩, ⟨invoked, released⟩)

/-- The probe loop of `calculate_thermals_mask`: `for (bit = .. ; bit < 32..)`
modelled by the current bit and the remaining iteration count.  On the
first probe failing with nonzero status it returns `thermals.mask - 1`
with `thermals.mask = 1 << bit`; if the loop runs out it returns the
all-ones mask.  Masks are 32-bit patterns modelled as `Nat`. -/
def probeFrom (env : NvEnv) (h : Nat) : Nat → Nat → Nat
  | _, 0 => 0xFFFFFFFF
  | bit, fuel + 1 =>
    if env.thermalStatus h thermalsVersion (1 <<< bit) ≠ 0 then
      ((1 <<< bit) - 1) % 2 ^ 32
    else probeFrom env h (bit + 1) fuel

/-- `calculate_thermals_mask`: returns 1 if the thermal interface cannot
be resolved or the baseline mask-1 query fails; otherwise probes bits
0..31 in increasing order. -/
def calculate_thermals_mask (env : NvEnv) (h : Nat) : Nat :=
  if ¬ get_nvapi_function env QUERY_NVAPI_THERMALS then 1
  else if env.thermalStatus h thermalsVersion 1 ≠ 0 then 1
  else probeFrom env h 0 32

/-- One driver call made with an `NvApiThermals` structure: the version
stamp and mask fields as passed. -/
structure ThermalCall where
  version : Nat
  mask : Nat
deriving DecidableEq, Repr

/-- Trace of the thermal calls issued by the probe loop of
`calculate_thermals_mask`. -/
def probeCallsFrom (env : NvEnv) (h : Nat) : Nat → Nat → List ThermalCall
  | _, 0 => []
  | bit, fuel + 1 =>
    ⟨thermalsVersion, (1 <<< bit) % 2 ^ 32⟩ ::
      (if env.thermalStatus h thermalsVersion (1 <<< bit) ≠ 0 then []
       else probeCallsFrom env h (bit + 1) fuel)

/-- Trace of every driver call issued by `calculate_thermals_mask`:
the baseline mask-1 call followed by the probe calls. -/
def calculate_thermals_mask_calls (env : NvEnv) (h : Nat) : List ThermalCall :=
  if ¬ get_nvapi_function env QUERY_NVAPI_THERMALS then []
  else ⟨thermalsVersion, 1⟩ ::
    (if env.thermalStatus h thermalsVersion 1 ≠ 0 then []
     else probeCallsFrom env h 0 32)

/-- `get_thermals`: issue one thermal query with the given mask and
decode.  `none` models the C return value `-1`; on success the pair is
(`*hotspot`, `*vram`), where `-1` is the in-band "not available" marker
written by the C code.  The C expressions `values[9] / 256` and
`values[15] / 256` are `int32_t` division truncating toward zero. -/
def get_thermals (env : NvEnv) (h : Nat) (mask : Nat) : Option (Int × Int) :=
  if ¬ get_nvapi_function env QUERY_NVAPI_THERMALS then none
  else if env.thermalStatus h thermalsVersion mask ≠ 0 then none
  else
    let values := env.thermalValues h thermalsVersion mask
    let hotspot_raw := (values ⟨9, by decide⟩).tdiv 256
    let hotspot : Int := if hotspot_raw > 0 ∧ hotspot_raw < 255 then hotspot_raw else -1
    let vram_raw := (values ⟨15, by decide⟩).tdiv 256
    let vram : Int := if vram_raw > 0 ∧ vram_raw < 255 then vram_raw else -1
    some (hotspot, vram)

/-- Trace of the thermal calls issued by one `get_thermals` invocation. -/
def get_thermals_calls (env : NvEnv) (h : Nat) (mask : Nat) : List ThermalCall :=
  if ¬ get_nvapi_function env QUERY_NVAPI_THERMALS then []
  else [⟨thermalsVersion, mask⟩]

/-- `get_voltage`: issue one voltage query.  `none` models the C return
value `-1`; on success the raw microvolt field is returned verbatim. -/
def get_voltage (env : NvEnv) (h : Nat) : Option Nat :=
  if ¬ get_nvapi_function env QUERY_NVAPI_VOLTAGE then none
  else if env.voltageStatus h voltageVersion ≠ 0 then none
  else some (env.voltageValue h voltageVersion)

/-- Trace of the version stamps passed to the driver by one
`get_voltage` invocation. -/
def get_voltage_calls (env : NvEnv) (h : Nat) : List Nat :=
  if ¬ get_nvapi_function env QUERY_NVAPI_VOLTAGE then []
  else [voltageVersion]

/-- The decode step of `get_thermals` for one raw array entry: the C code
computes `raw / 256` (`int32_t` truncating division) and keeps it only
when `> 0 && < 255`, otherwise writes the `-1` "not available" marker. -/
def decodeTemp (raw : Int) : Int :=
  if raw.tdiv 256 > 0 ∧ raw.tdiv 256 < 255 then raw.tdiv 256 else -1

/-- The raw hotspot entry, `values[9]`, written by a thermal query. -/
def rawHotspot (env : NvEnv) (hd mask : Nat) : Int :=
  env.thermalValues hd thermalsVersion mask ⟨9, by decide⟩

/-- The raw VRAM entry, `values[15]`, written by a thermal query. -/
def rawVram (env : NvEnv) (hd mask : Nat) : Int :=
  env.thermalValues hd thermalsVersion mask ⟨15, by decide⟩

/-- A temperature line of the per-device report. -/
inductive TempField where
  /-- A numeric reading, printed in °C. -/
  | val (t : Int) : TempField
  /-- The "Not available" text. -/
  | notAvailable : TempField
  /-- The "Error reading" text. -/
  | errorReading : TempField
deriving DecidableEq, Repr

/-- The voltage line of the per-device report. -/
inductive VoltField where
  /-- A numeric reading in microvolts (also printed in volts). -/
  | val (uv : Nat) : VoltField
  /-- The "Not available" text. -/
  | notAvailable : VoltField
deriving DecidableEq, Repr

/-- The report `main` prints for one GPU. -/
structure DeviceReport where
  mask : Nat
  voltage : VoltField
  hotspot : TempField
  vram : TempField
deriving DecidableEq, Repr

/-- The per-device body of the loop in `main`: discover the mask, read
voltage, read thermals, convert each outcome to its report line. -/
def reportDevice (env : NvEnv) (h : Nat) : DeviceReport :=
  let mask := calculate_thermals_mask env h
  let volt := match get_voltage env h with
    | some v => VoltField.val v
    | none => VoltField.notAvailable
  match get_thermals env h mask with
  | some (hs, vr) =>
    { mask := mask, voltage := volt,
      hotspot := if hs ≥ 0 then TempField.val hs else TempField.notAvailable,
      vram := if vr ≥ 0 then TempField.val vr else TempField.notAvailable }
  | none =>
    { mask := mask, voltage := volt,
      hotspot := TempField.errorReading, vram := TempField.errorReading }

/-- `main`: load, init, enumerate, report every device, clean up.
Returns the process exit code, the printed device reports (`none` when
the run aborted before the loop), and the final global state. -/
def main_run (env : NvEnv) : Nat × Option (List DeviceReport) × NvState :=
  let ls := load_nvapi env
  if ls.1 ≠ 0 then (1, none, ls.2)
  else if init_nvapi env ≠ 0 then (1, none, ⟨false, ls.2.queryInterfaceSet⟩)
  else match enum_physical_gpus env with
    | none => (1, none, (unload_nvapi env ls.2).1)
    | some devs => (0, some (devs.map (reportDevice env)), (unload_nvapi env ls.2).1)

/-- Simulated driver whose thermal queries fail for every mask with a
bit above bit 5 set, and succeed otherwise; every raw value is 6400
(25 °C) and the voltage is 850000 µV. -/
def envFailAbove5 : NvEnv where
  libPresent := true
  symbolPresent := true
  resolve := fun _ => true
  initStatus := 0
  enumStatus := 0
  enumDevices := [0]
  thermalStatus := fun _ _ m => if m < 64 then 0 else 1
  thermalValues := fun _ _ _ _ => 6400
  voltageStatus := fun _ _ => 0
  voltageValue := fun _ _ => 850000

/-- Simulated driver on which every thermal query fails, baseline
included. -/
def envBaselineFail : NvEnv where
  libPresent := true
  symbolPresent := true
  resolve := fun _ => true
  initStatus := 0
  enumStatus := 0
  enumDevices := [0]
  thermalStatus := fun _ _ _ => 1
  thermalValues := fun _ _ _ _ => 6400
  voltageStatus := fun _ _ => 0
  voltageValue := fun _ _ => 850000

/-- Simulated driver that does not recognise the thermal interface ID;
everything else resolves and succeeds. -/
def envNoThermalId : NvEnv where
  libPresent := true
  symbolPresent := true
  resolve := fun id => id != QUERY_NVAPI_THERMALS
  initStatus := 0
  enumStatus := 0
  enumDevices := [0]
  thermalStatus := fun _ _ _ => 1
  thermalValues := fun _ _ _ _ => 6400
  voltageStatus := fun _ _ => 0
  voltageValue := fun _ _ => 850000

/-- Simulated driver that does not recognise the voltage interface ID;
thermal queries behave exactly as in `envFailAbove5`. -/
def envNoVoltageId : NvEnv where
  libPresent := true
  symbolPresent := true
  resolve := fun id => id != QUERY_NVAPI_VOLTAGE
  initStatus := 0
  enumStatus := 0
  enumDevices := [0]
  thermalStatus := fun _ _ m => if m < 64 then 0 else 1
  thermalValues := fun _ _ _ _ => 6400
  voltageStatus := fun _ _ => 0
  voltageValue := fun _ _ => 850000

/-- Simulated two-device session: every call succeeds on device 0, every
thermal call fails on device 1. -/
def envPartial : NvEnv where
  libPresent := true
  symbolPresent := true
  resolve := fun _ => true
  initStatus := 0
  enumStatus := 0
  enumDevices := [0, 1]
  thermalStatus := fun hd _ _ => if hd = 0 then 0 else 1
  thermalValues := fun _ _ _ _ => 6400
  voltageStatus := fun _ _ => 0
  voltageValue := fun _ _ => 850000

/-! ## Helper lemmas about the probe loop and the readers -/

lemma probeFrom_all_ok (env : NvEnv) (hd : Nat) :
    ∀ f s, (∀ i, s ≤ i → i < s + f →
      env.thermalStatus hd thermalsVersion (1 <<< i) = 0) →
    probeFrom env hd s f = 0xFFFFFFFF := by
  intro f
  induction f with
  | zero => intro s _; rfl
  | succ f ih =>
    intro s hok
    have h0 : env.thermalStatus hd thermalsVersion (1 <<< s) = 0 :=
      hok s le_rfl (by omega)
    rw [probeFrom, if_neg (by simp [h0])]
    exact ih (s + 1) (fun i hi hlt => hok i (by omega) (by omega))

lemma probeFrom_first_fail (env : NvEnv) (hd b : Nat) :
    ∀ f s, s ≤ b → b < s + f →
    (∀ i, s ≤ i → i < b → env.thermalStatus hd thermalsVersion (1 <<< i) = 0) →
    env.thermalStatus hd thermalsVersion (1 <<< b) ≠ 0 →
    probeFrom env hd s f = ((1 <<< b) - 1) % 2 ^ 32 := by
  intro f
  induction f with
  | zero => intro s hsb hlt _ _; omega
  | succ f ih =>
    intro s hsb hlt hok hfail
    rcases Nat.eq_or_lt_of_le hsb with heq | hlt2
    · subst heq
      rw [probeFrom, if_pos hfail]
    · have h0 := hok s le_rfl hlt2
      rw [probeFrom, if_neg (by simp [h0])]
      exact ih (s + 1) hlt2 (by omega) (fun i hi h2 => hok i (by omega) h2) hfail

lemma get_thermals_eq_decode (env : NvEnv) (hd mask : Nat)
    (hres : env.resolve QUERY_NVAPI_THERMALS = true)
    (hst : env.thermalStatus hd thermalsVersion mask = 0) :
    get_thermals env hd mask =
      some (decodeTemp (rawHotspot env hd mask), decodeTemp (rawVram env hd mask)) := by
  simp [get_thermals, get_nvapi_function, hres, hst, decodeTemp, rawHotspot, rawVram]

lemma probeCallsFrom_version (env : NvEnv) (hd : Nat) :
    ∀ f s c, c ∈ probeCallsFrom env hd s f → c.version = thermalsVersion := by
  intro f
  induction f with
  | zero => intro s c hc; simp [probeCallsFrom] at hc
  | succ f ih =>
    intro s c hc
    rw [probeCallsFrom] at hc
    rcases List.mem_cons.mp hc with h | h
    · rw [h]
    · split at h
      · simp at h
      · exact ih (s + 1) c h

lemma probeCallsFrom_length (env : NvEnv) (hd : Nat) :
    ∀ f s, (probeCallsFrom env hd s f).length ≤ f := by
  intro f
  induction f with
  | zero => intro s; simp [probeCallsFrom]
  | succ f ih =>
    intro s
    rw [probeCallsFrom]
    simp only [List.length_cons]
    split
    · simp
    · have := ih (s + 1)
      omega

lemma probeFrom_congr (env env2 : NvEnv) (hd : Nat)
    (h2 : env.thermalStatus = env2.thermalStatus) :
    ∀ f s, probeFrom env hd s f = probeFrom env2 hd s f := by
  intro f
  induction f with
  | zero => intro s; rfl
  | succ f ih =>
    intro s
    simp only [probeFrom, h2, ih (s + 1)]

lemma calculate_thermals_mask_congr (env env2 : NvEnv) (hd : Nat)
    (h1 : env.resolve QUERY_NVAPI_THERMALS = env2.resolve QUERY_NVAPI_THERMALS)
    (h2 : env.thermalStatus = env2.thermalStatus) :
    calculate_thermals_mask env hd = calculate_thermals_mask env2 hd := by
  unfold calculate_thermals_mask get_nvapi_function
  rw [h1, h2, probeFrom_congr env env2 hd h2 32 0]

lemma get_thermals_congr (env env2 : NvEnv) (hd mask : Nat)
    (h1 : env.resolve QUERY_NVAPI_THERMALS = env2.resolve QUERY_NVAPI_THERMALS)
    (h2 : env.thermalStatus = env2.thermalStatus)
    (h3 : env.thermalValues = env2.thermalValues) :
    get_thermals env hd mask = get_thermals env2 hd mask := by
  unfold get_thermals get_nvapi_function
  rw [h1, h2, h3]

lemma get_voltage_congr (env env2 : NvEnv) (hd : Nat)
    (h1 : env.resolve QUERY_NVAPI_VOLTAGE = env2.resolve QUERY_NVAPI_VOLTAGE)
    (h2 : env.voltageStatus = env2.voltageStatus)
    (h3 : env.voltageValue = env2.voltageValue) :
    get_voltage env hd = get_voltage env2 hd := by
  unfold get_voltage get_nvapi_function
  rw [h1, h2, h3]

lemma reportDevice_voltage_line (env : NvEnv) (hd : Nat) :
    (reportDevice env hd).voltage =
      (match get_voltage env hd with
       | some v => VoltField.val v
       | none => VoltField.notAvailable) := by
  simp only [reportDevice]
  cases h : get_thermals env hd (calculate_thermals_mask env hd) with
  | none => simp
  | some p => obtain ⟨hs, vr⟩ := p; simp

lemma load_nvapi_cases (env : NvEnv) :
    load_nvapi env = (0, ⟨true, true⟩) ∨ load_nvapi env = (-1, ⟨false, false⟩) := by
  unfold load_nvapi
  split_ifs <;> simp

/-! ## Claim theorems -/

/-- C1: the mask prober returns the fallback mask 1 when the baseline
mask-1 query fails; otherwise it probes bits 0..31 in increasing order
with mask `1 << bit`, returns `((1 << b) - 1) % 2^32` when the first
failing probe is at bit `b` (the `% 2^32` covering the bit-31 wrap), and
returns the all-ones mask `0xFFFFFFFF` when no probe ever fails. -/
theorem mask_prober_spec (env : NvEnv) (hd b : Nat) (hb : b < 32)
    (hres : env.resolve QUERY_NVAPI_THERMALS = true) :
    (env.thermalStatus hd thermalsVersion 1 ≠ 0 →
      calculate_thermals_mask env hd = 1) ∧
    (env.thermalStatus hd thermalsVersion 1 = 0 →
      (∀ i, i < b → env.thermalStatus hd thermalsVersion (1 <<< i) = 0) →
      env.thermalStatus hd thermalsVersion (1 <<< b) ≠ 0 →
      calculate_thermals_mask env hd = ((1 <<< b) - 1) % 2 ^ 32) ∧
    (env.thermalStatus hd thermalsVersion 1 = 0 →
      (∀ i, i < 32 → env.thermalStatus hd thermalsVersion (1 <<< i) = 0) →
      calculate_thermals_mask env hd = 0xFFFFFFFF) := by
  refine ⟨?_, ?_, ?_⟩
  · intro hbase
    simp [calculate_thermals_mask, get_nvapi_function, hres, hbase]
  · intro hbase hok hfail
    have heq : calculate_thermals_mask env hd = probeFrom env hd 0 32 := by
      simp [calculate_thermals_mask, get_nvapi_function, hres, hbase]
    rw [heq]
    exact probeFrom_first_fail env hd b 32 0 (Nat.zero_le b) (by omega)
      (fun i _ h2 => hok i h2) hfail
  · intro hbase hok
    have heq : calculate_thermals_mask env hd = probeFrom env hd 0 32 := by
      simp [calculate_thermals_mask, get_nvapi_function, hres, hbase]
    rw [heq]
    exact probeFrom_all_ok env hd 32 0 (fun i _ hlt => hok i (by omega))

/-- C1 witness: on a driver failing every probe above bit 5 the prober
yields `0x3F`. -/
theorem mask_prober_spec_witness :
    calculate_thermals_mask envFailAbove5 0 = 0x3F := by
  have h := (mask_prober_spec envFailAbove5 0 6 (by decide) rfl).2.1 rfl
    (fun i hi => by interval_cases i <;> rfl) (by decide)
  rw [h]
  decide

/-- C9: when the thermal interface ID itself does not resolve, the mask
prober returns the same fallback mask 1 it returns for a failed baseline
query, so the two degraded modes are indistinguishable to its caller. -/
theorem unresolved_thermal_fallback (env env2 : NvEnv) (hd hd2 : Nat)
    (hnull : env.resolve QUERY_NVAPI_THERMALS = false)
    (hres2 : env2.resolve QUERY_NVAPI_THERMALS = true)
    (hbase2 : env2.thermalStatus hd2 thermalsVersion 1 ≠ 0) :
    calculate_thermals_mask env hd = 1 ∧
    calculate_thermals_mask env hd = calculate_thermals_mask env2 hd2 := by
  have h1 : calculate_thermals_mask env hd = 1 := by
    simp [calculate_thermals_mask, get_nvapi_function, hnull]
  have h2 : calculate_thermals_mask env2 hd2 = 1 := by
    simp [calculate_thermals_mask, get_nvapi_function, hres2, hbase2]
  exact ⟨h1, h1.trans h2.symm⟩

/-- C9 witness: an unresolved thermal interface and a failed baseline
both yield mask 1. -/
theorem unresolved_thermal_fallback_witness :
    calculate_thermals_mask envNoThermalId 0 = 1 ∧
    calculate_thermals_mask envNoThermalId 0 = calculate_thermals_mask envBaselineFail 0 :=
  unresolved_thermal_fallback envNoThermalId envBaselineFail 0 0
    (by decide) rfl (by decide)

/-- C2: a successful thermal query decodes `values[9] / 256` and
`values[15] / 256`; a decoded value is reported as a reading exactly when
it lies strictly inside (0, 255), and otherwise the `-1` "not available"
marker is reported — in particular raw 0 and every raw ≥ 65280 decode to
"not available", while raw 6400 decodes to 25. -/
theorem thermal_decode_spec (env : NvEnv) (hd mask : Nat)
    (hres : env.resolve QUERY_NVAPI_THERMALS = true)
    (hst : env.thermalStatus hd thermalsVersion mask = 0) :
    get_thermals env hd mask =
      some (decodeTemp (rawHotspot env hd mask), decodeTemp (rawVram env hd mask)) ∧
    (∀ raw : Int, 0 < raw.tdiv 256 → raw.tdiv 256 < 255 →
      decodeTemp raw = raw.tdiv 256) ∧
    (∀ raw : Int, ¬(0 < raw.tdiv 256 ∧ raw.tdiv 256 < 255) →
      decodeTemp raw = -1) ∧
    decodeTemp 6400 = 25 ∧ decodeTemp 0 = -1 ∧
    (∀ raw : Int, 65280 ≤ raw → decodeTemp raw = -1) := by
  refine ⟨get_thermals_eq_decode env hd mask hres hst, ?_, ?_, by decide, by decide, ?_⟩
  · intro raw h1 h2
    unfold decodeTemp
    rw [if_pos ⟨h1, h2⟩]
  · intro raw hout
    unfold decodeTemp
    rw [if_neg hout]
  · intro raw hraw
    have h255 : 255 ≤ raw.tdiv 256 := by
      rw [Int.tdiv_eq_ediv (by omega) (by omega), Int.le_ediv_iff_mul_le (by omega)]
      omega
    unfold decodeTemp
    rw [if_neg (by omega)]

/-- C2 witness: on a driver writing raw value 6400 everywhere, a
successful read reports 25 °C for both sensors. -/
theorem thermal_decode_spec_witness :
    get_thermals envFailAbove5 0 1 = some (25, 25) := by
  have h := (thermal_decode_spec envFailAbove5 0 1 rfl rfl).1
  rw [h]
  decide

/-- C10: the decoding step and the availability decision of a successful
thermal read depend only on the raw values the driver wrote at indices 9
and 15, never on which bits of the mask argument were set: any two
successful reads (any masks, including 0 and 1) that see the same raw
entries at indices 9 and 15 produce identical results. -/
theorem thermal_mask_independent (env env2 : NvEnv) (hd hd2 m m2 : Nat)
    (hres : env.resolve QUERY_NVAPI_THERMALS = true)
    (hres2 : env2.resolve QUERY_NVAPI_THERMALS = true)
    (hst : env.thermalStatus hd thermalsVersion m = 0)
    (hst2 : env2.thermalStatus hd2 thermalsVersion m2 = 0)
    (h9 : rawHotspot env hd m = rawHotspot env2 hd2 m2)
    (h15 : rawVram env hd m = rawVram env2 hd2 m2) :
    (get_thermals env hd m).isSome = true ∧
    get_thermals env hd m = get_thermals env2 hd2 m2 := by
  have e1 := get_thermals_eq_decode env hd m hres hst
  have e2 := get_thermals_eq_decode env2 hd2 m2 hres2 hst2
  rw [e1, e2, h9, h15]
  exact ⟨rfl, rfl⟩

/-- C10 witness: reads with mask 1 and mask 0 on the same simulated
driver agree (both succeed and decode the same entries). -/
theorem thermal_mask_independent_witness :
    (get_thermals envFailAbove5 0 1).isSome = true ∧
    get_thermals envFailAbove5 0 1 = get_thermals envFailAbove5 0 0 :=
  thermal_mask_independent envFailAbove5 envFailAbove5 0 0 1 0
    rfl rfl rfl rfl rfl rfl

/-- C5: a successful voltage query returns the raw microvolt field
verbatim, with no range filtering; raw 850000 is reported as 850000 µV,
which is 0.850 V. -/
theorem voltage_verbatim (env : NvEnv) (hd : Nat)
    (hres : env.resolve QUERY_NVAPI_VOLTAGE = true)
    (hst : env.voltageStatus hd voltageVersion = 0) :
    get_voltage env hd = some (env.voltageValue hd voltageVersion) ∧
    (env.voltageValue hd voltageVersion = 850000 →
      get_voltage env hd = some 850000 ∧ (850000 : ℚ) / 1000000 = 850 / 1000) := by
  have h : get_voltage env hd = some (env.voltageValue hd voltageVersion) := by
    simp [get_voltage, get_nvapi_function, hres, hst]
  refine ⟨h, fun hv => ⟨?_, by norm_num⟩⟩
  rw [h, hv]

/-- C5 witness: the simulated driver reporting 850000 µV yields exactly
`some 850000`. -/
theorem voltage_verbatim_witness :
    get_voltage envFailAbove5 0 = some 850000 ∧
    (850000 : ℚ) / 1000000 = 850 / 1000 :=
  (voltage_verbatim envFailAbove5 0 rfl rfl).2 rfl

/-- C3: every thermal structure the program passes to the driver — the
baseline call, each of the at most 32 probe calls (33 calls in all), and
the read in `get_thermals` — carries the stamp
`sizeof(NvApiThermals) | (2 << 16)`, every voltage structure carries
`sizeof(NvApiVoltage) | (1 << 16)`, and each stamp decomposes exactly
into the structure's true byte size (low 16 bits) and its version number
(high bits). -/
theorem version_stamp_invariant (env : NvEnv) (hd mask : Nat) :
    (∀ c ∈ calculate_thermals_mask_calls env hd,
      c.version = sizeofNvApiThermals ||| (2 <<< 16)) ∧
    (calculate_thermals_mask_calls env hd).length ≤ 33 ∧
    (∀ c ∈ get_thermals_calls env hd mask,
      c.version = sizeofNvApiThermals ||| (2 <<< 16)) ∧
    (∀ v ∈ get_voltage_calls env hd, v = sizeofNvApiVoltage ||| (1 <<< 16)) ∧
    thermalsVersion % 2 ^ 16 = sizeofNvApiThermals ∧
    thermalsVersion >>> 16 = 2 ∧
    voltageVersion % 2 ^ 16 = sizeofNvApiVoltage ∧
    voltageVersion >>> 16 = 1 := by
  refine ⟨?_, ?_, ?_, ?_, by decide, by decide, by decide, by decide⟩
  · intro c hc
    unfold calculate_thermals_mask_calls at hc
    split at hc
    · simp at hc
    · rcases List.mem_cons.mp hc with h | h
      · rw [h]
        rfl
      · split at h
        · simp at h
        · exact probeCallsFrom_version env hd 32 0 c h
  · unfold calculate_thermals_mask_calls
    split
    · simp
    · simp only [List.length_cons]
      split
      · simp
      · have := probeCallsFrom_length env hd 32 0
        omega
  · intro c hc
    unfold get_thermals_calls at hc
    split at hc
    · simp at hc
    · simp at hc
      rw [hc]
      rfl
  · intro v hv
    unfold get_voltage_calls at hv
    split at hv
    · simp at hv
    · simp at hv
      rw [hv]
      rfl

/-- C3 witness: the baseline call of the prober on a concrete simulated
driver carries the thermal stamp. -/
theorem version_stamp_invariant_witness :
    (⟨thermalsVersion, 1⟩ : ThermalCall) ∈ calculate_thermals_mask_calls envFailAbove5 0 ∧
    (⟨thermalsVersion, 1⟩ : ThermalCall).version = sizeofNvApiThermals ||| (2 <<< 16) :=
  ⟨by decide, (version_stamp_invariant envFailAbove5 0 1).1 ⟨thermalsVersion, 1⟩ (by decide)⟩

/-- C8: `unload_nvapi` is total and safe in every global state: it always
leaves the module unloaded, invokes the driver's unload entry point
exactly when the query interface was ever obtained and the unload ID
resolves, releases the module exactly when one was loaded, and running it
a second time does not change the state. -/
theorem unload_safe_total (env : NvEnv) (s : NvState) :
    (unload_nvapi env s).1.libLoaded = false ∧
    (unload_nvapi env s).1.queryInterfaceSet = s.queryInterfaceSet ∧
    (unload_nvapi env s).2.invokedUnloadEntry =
      (s.queryInterfaceSet && get_nvapi_function env QUERY_NVAPI_UNLOAD) ∧
    (unload_nvapi env s).2.releasedModule = s.libLoaded ∧
    (unload_nvapi env (unload_nvapi env s).1).1 = (unload_nvapi env s).1 :=
  ⟨rfl, rfl, rfl, rfl, rfl⟩

/-- C7: the resolver returns the driver's answer (null included) without
failing; a reader whose interface ID does not resolve reports only its
own field(s) as unavailable or in error, leaving the other reader's
fields exactly as they would be with that interface present. -/
theorem unresolved_interface_isolated (env env2 : NvEnv) (hd id : Nat) :
    get_nvapi_function env id = env.resolve id ∧
    (env.resolve QUERY_NVAPI_VOLTAGE = false →
      get_voltage env hd = none ∧
      (reportDevice env hd).voltage = VoltField.notAvailable) ∧
    (env.resolve QUERY_NVAPI_VOLTAGE = false →
      env.resolve QUERY_NVAPI_THERMALS = env2.resolve QUERY_NVAPI_THERMALS →
      env.thermalStatus = env2.thermalStatus →
      env.thermalValues = env2.thermalValues →
      (reportDevice env hd).hotspot = (reportDevice env2 hd).hotspot ∧
      (reportDevice env hd).vram = (reportDevice env2 hd).vram) ∧
    (env.resolve QUERY_NVAPI_THERMALS = false →
      (reportDevice env hd).hotspot = TempField.errorReading ∧
      (reportDevice env hd).vram = TempField.errorReading ∧
      (env.resolve QUERY_NVAPI_VOLTAGE = env2.resolve QUERY_NVAPI_VOLTAGE →
        env.voltageStatus = env2.voltageStatus →
        env.voltageValue = env2.voltageValue →
        (reportDevice env hd).voltage = (reportDevice env2 hd).voltage)) := by
  refine ⟨rfl, ?_, ?_, ?_⟩
  · intro hv
    have hvn : get_voltage env hd = none := by
      simp [get_voltage, get_nvapi_function, hv]
    refine ⟨hvn, ?_⟩
    rw [reportDevice_voltage_line, hvn]
  · intro _ hres h2 h3
    have hm := calculate_thermals_mask_congr env env2 hd hres h2
    have ht : get_thermals env hd (calculate_thermals_mask env hd)
        = get_thermals env2 hd (calculate_thermals_mask env2 hd) := by
      rw [get_thermals_congr env env2 hd (calculate_thermals_mask env hd) hres h2 h3, hm]
    constructor <;>
    · cases hth : get_thermals env2 hd (calculate_thermals_mask env2 hd) with
      | none => simp [reportDevice, ht.trans hth, hth]
      | some p => obtain ⟨hs, vr⟩ := p; simp [reportDevice, ht.trans hth, hth]
  · intro hth
    have hthn : get_thermals env hd (calculate_thermals_mask env hd) = none := by
      simp [get_thermals, get_nvapi_function, hth]
    refine ⟨by simp [reportDevice, hthn], by simp [reportDevice, hthn], ?_⟩
    intro hvr hvs hvv
    rw [reportDevice_voltage_line, reportDevice_voltage_line,
      get_voltage_congr env env2 hd hvr hvs hvv]

/-- C7 witness: with the voltage ID unresolved only the voltage line
degrades; with the thermal ID unresolved both temperature lines read
"Error reading". -/
theorem unresolved_interface_isolated_witness :
    get_voltage envNoVoltageId 0 = none ∧
    (reportDevice envNoVoltageId 0).voltage = VoltField.notAvailable ∧
    (reportDevice envNoThermalId 0).hotspot = TempField.errorReading ∧
    (reportDevice envNoThermalId 0).vram = TempField.errorReading := by
  have h1 := (unresolved_interface_isolated envNoVoltageId envFailAbove5 0 0).2.1 (by decide)
  have h2 := (unresolved_interface_isolated envNoThermalId envBaselineFail 0 0).2.2.2 (by decide)
  exact ⟨h1.1, h1.2, h2.1, h2.2.1⟩

/-- C6: the process exits 0 exactly when loading, initialization and
enumeration all succeed; it exits 1 on a load, init or enumeration
failure; and on every path the module is released before exit. -/
theorem exit_code_spec (env : NvEnv) :
    ((main_run env).1 = 0 ↔
      ((load_nvapi env).1 = 0 ∧ init_nvapi env = 0 ∧
        (enum_physical_gpus env).isSome = true)) ∧
    ((main_run env).1 = 0 ∨ (main_run env).1 = 1) ∧
    (main_run env).2.2.libLoaded = false := by
  rcases load_nvapi_cases env with hl | hl
  · by_cases hi : init_nvapi env = 0
    · cases he : enum_physical_gpus env with
      | none => simp [main_run, hl, hi, he, unload_nvapi]
      | some devs => simp [main_run, hl, hi, he, unload_nvapi]
    · simp [main_run, hl, hi]
  · simp [main_run, hl]

/-- C6 witness: the fully successful two-device session exits 0. -/
theorem exit_code_spec_witness :
    (main_run envPartial).1 = 0 :=
  (exit_code_spec envPartial).1.mpr ⟨by decide, by decide, by decide⟩

/-- C4: a run that loads, initializes and enumerates exactly two devices,
with every read succeeding on device 0 (and its decoded temperatures in
range) but every thermal call failing on device 1, exits 0 and produces a
report with full numeric values for device 0 and the "Error reading"
marker for both temperature fields of device 1. -/
theorem partial_failure_report (env : NvEnv) (d0 d1 : Nat)
    (hlib : env.libPresent = true) (hsym : env.symbolPresent = true)
    (hres : ∀ id, env.resolve id = true)
    (hinit : env.initStatus = 0) (henum : env.enumStatus = 0)
    (hdevs : env.enumDevices = [d0, d1])
    (ht0 : ∀ v m, env.thermalStatus d0 v m = 0)
    (hv0 : ∀ v, env.voltageStatus d0 v = 0)
    (hg9 : ∀ m, 0 < (rawHotspot env d0 m).tdiv 256 ∧ (rawHotspot env d0 m).tdiv 256 < 255)
    (hg15 : ∀ m, 0 < (rawVram env d0 m).tdiv 256 ∧ (rawVram env d0 m).tdiv 256 < 255)
    (ht1 : ∀ v m, env.thermalStatus d1 v m ≠ 0) :
    (main_run env).1 = 0 ∧
    ∃ r0 r1, (main_run env).2.1 = some [r0, r1] ∧
      (∃ uv, r0.voltage = VoltField.val uv) ∧
      (∃ t, r0.hotspot = TempField.val t) ∧
      (∃ t, r0.vram = TempField.val t) ∧
      r1.hotspot = TempField.errorReading ∧
      r1.vram = TempField.errorReading := by
  have hload : load_nvapi env = (0, ⟨true, true⟩) := by
    simp [load_nvapi, hlib, hsym]
  have hinit2 : init_nvapi env = 0 := by
    simp [init_nvapi, get_nvapi_function, hres, hinit]
  have henum2 : enum_physical_gpus env = some [d0, d1] := by
    simp [enum_physical_gpus, get_nvapi_function, hres, henum, hdevs]
  have hmain : (main_run env).1 = 0 ∧
      (main_run env).2.1 = some [reportDevice env d0, reportDevice env d1] := by
    rw [main_run, hload]
    simp [hinit2, henum2]
  refine ⟨hmain.1, reportDevice env d0, reportDevice env d1, hmain.2, ?_, ?_, ?_, ?_, ?_⟩
  · refine ⟨env.voltageValue d0 voltageVersion, ?_⟩
    rw [reportDevice_voltage_line]
    have : get_voltage env d0 = some (env.voltageValue d0 voltageVersion) := by
      simp [get_voltage, get_nvapi_function, hres, hv0]
    rw [this]
  · have hth := get_thermals_eq_decode env d0 (calculate_thermals_mask env d0)
      (hres _) (ht0 _ _)
    have hd9 : decodeTemp (rawHotspot env d0 (calculate_thermals_mask env d0)) =
        (rawHotspot env d0 (calculate_thermals_mask env d0)).tdiv 256 := by
      unfold decodeTemp
      exact if_pos ⟨(hg9 _).1, (hg9 _).2⟩
    refine ⟨(rawHotspot env d0 (calculate_thermals_mask env d0)).tdiv 256, ?_⟩
    have hge : (0:Int) ≤ (rawHotspot env d0 (calculate_thermals_mask env d0)).tdiv 256 :=
      le_of_lt (hg9 _).1
    simp [reportDevice, hth, hd9, hge]
  · have hth := get_thermals_eq_decode env d0 (calculate_thermals_mask env d0)
      (hres _) (ht0 _ _)
    have hd15 : decodeTemp (rawVram env d0 (calculate_thermals_mask env d0)) =
        (rawVram env d0 (calculate_thermals_mask env d0)).tdiv 256 := by
      unfold decodeTemp
      exact if_pos ⟨(hg15 _).1, (hg15 _).2⟩
    refine ⟨(rawVram env d0 (calculate_thermals_mask env d0)).tdiv 256, ?_⟩
    have hge : (0:Int) ≤ (rawVram env d0 (calculate_thermals_mask env d0)).tdiv 256 :=
      le_of_lt (hg15 _).1
    simp [reportDevice, hth, hd15, hge]
  · have hthn : get_thermals env d1 (calculate_thermals_mask env d1) = none := by
      simp [get_thermals, ht1]
    simp [reportDevice, hthn]
  · have hthn : get_thermals env d1 (calculate_thermals_mask env d1) = none := by
      simp [get_thermals, ht1]
    simp [reportDevice, hthn]

/-- C4 witness: the concrete two-device session with a failing device-1
thermal path exits 0 with the expected report shape. -/
theorem partial_failure_report_witness :
    (main_run envPartial).1 = 0 ∧
    ∃ r0 r1, (main_run envPartial).2.1 = some [r0, r1] ∧
      (∃ uv, r0.voltage = VoltField.val uv) ∧
      (∃ t, r0.hotspot = TempField.val t) ∧
      (∃ t, r0.vram = TempField.val t) ∧
      r1.hotspot = TempField.errorReading ∧
      r1.vram = TempField.errorReading :=
  partial_failure_report envPartial 0 1 rfl rfl (fun _ => rfl) rfl rfl rfl
    (fun _ _ => rfl) (fun _ => rfl)
    (fun _ => by
      change (0:Int) < (6400:Int).tdiv 256 ∧ (6400:Int).tdiv 256 < 255
      decide)
    (fun _ => by
      change (0:Int) < (6400:Int).tdiv 256 ∧ (6400:Int).tdiv 256 < 255
      decide)
    (fun _ _ => by
      change (if (1:Nat) = 0 then (0:Int) else 1) ≠ 0
      decide)
